import Mathlib

/-!
Verification development for the data-architect-assistant repository.

The repository is a Streamlit retrieval-augmented QA app (src/app.py) over a
prompt module (src/src/prompt.py).  Pure fragments of the Python source are
embedded below as Lean definitions: dictionaries become structures, Python
sets become lists with membership-checked insertion, raised exceptions become
Except/Option values, and the in-place mutation of the sources list becomes a
map producing the updated list.  The modules src/rag.py, src/helper.py and
src/pdf_utils.py are imported by app.py but are not part of the repository
snapshot; where a property depends on them the corresponding definition is
modelled from the specification and marked as such in its doc comment.
-/

-- ================================
-- Constants (src/app.py, page setup section)
-- ================================

/-- Embeds COURSE_NAMESPACE = "Medical_Course" (src/app.py line 20). -/
def COURSE_NAMESPACE : String := "Medical_Course"

-- ================================
-- Namespace listing (src/app.py, list_patient_namespaces)
-- ================================

/-- Embeds list_patient_namespaces (src/app.py lines 134-141).  The body
wraps the index-store calls in try/except: `describe_result` is the outcome
of `pc.Index(index_name).describe_index_stats()`, delivering the list of
namespace names on success and the raised exception message on failure.  On
any exception the function returns the empty list; on success it returns the
namespaces with COURSE_NAMESPACE filtered out. -/
def list_patient_namespaces (describe_result : Except String (List String)) : List String :=
  match describe_result with
  | Except.error _ => []
  | Except.ok namespaces => namespaces.filter (fun ns => decide (ns ≠ COURSE_NAMESPACE))

-- ================================
-- Coursebook ingestion dialog (src/app.py, coursebook_dialog)
-- ================================

/-- Embeds coursebook_dialog (src/app.py lines 170-194), restricted to its
ledger logic.  `uploaded_courses` is the session ledger (a Python set,
modelled as a duplicate-free list); `process_result` is the outcome of the
external call process_coursebook_pdf(save_path, embedding, index_name),
which raises on failure.  The returned triple is (ledger after the dialog,
the exception that escaped if any, the number of times process_coursebook_pdf
was invoked).  When the filename is already in the ledger the processing
branch is skipped entirely; otherwise process_coursebook_pdf runs and only
after it returns is the filename added to the ledger, so an exception leaves
the ledger untouched. -/
def coursebook_dialog (process_result : Except String Unit) (uploaded_courses : List String)
    (filename : String) : List String × Option String × Nat :=
  if filename ∈ uploaded_courses then
    (uploaded_courses, none, 0)
  else
    match process_result with
    | Except.ok _ => (filename :: uploaded_courses, none, 1)
    | Except.error e => (uploaded_courses, some e, 1)

-- ================================
-- Prompt constants (src/src/prompt.py)
-- ================================

/-- The exact insufficient-context sentence that system_prompt instructs the
model to emit verbatim, as a standalone constant suitable for exact string
matching.  It appears quoted inside system_prompt below. -/
def insufficient_context_sentence : String :=
  "The provided context does not contain sufficient information to give recommendations on this topic. Please request more details from the client."

/-- The grounding clause of system_prompt that restricts the model to the
supplied context. -/
def grounding_clause : String :=
  "ONLY use the information provided in the context below. Do NOT add any information from your general knowledge. "

/-- Embeds the fixed instruction part of system_prompt (src/src/prompt.py
lines 5-16): the nine implicitly concatenated Python string literals that
precede the final context placeholder.  Apostrophes are written as \x27. -/
def system_instruction : String :=
  "You are a Data Architect Assistant helping data architects understand client problems and design the right solutions. "
  ++ "Answer clearly, accurately, and concisely. Focus only on providing architectural advice, suggestions, recommendations, cautions, and checklists "
  ++ "that a data architect can use to make decisions. "
  ++ "Prioritize clarity of client needs, alignment with best practices, and potential risks/trade-offs in design choices. "
  ++ "ONLY use the information provided in the context below. Do NOT add any information from your general knowledge. "
  ++ "If the provided context does not contain enough information to answer the question, explicitly state: "
  ++ "\x27The provided context does not contain sufficient information to give recommendations on this topic. Please request more details from the client.\x27 "
  ++ "Provide structured, actionable insights that are step-by-step and directly based on the context. "
  ++ "Do not speculate, assume requirements, or provide information not found in the context.\n\n"

/-- Embeds system_prompt (src/src/prompt.py lines 5-16): the fixed
instruction followed by the context placeholder, which the Python source
keeps as the final characters of the string. -/
def system_prompt : String := system_instruction ++ "{context}"

/-- Embeds qa_prompt = ChatPromptTemplate.from_messages with a system turn
holding system_prompt and a human turn holding the query placeholder
(src/src/prompt.py lines 20-25).  Formatting the template interpolates the
retrieved context into the placeholder at the end of system_prompt, which
appends it to the fixed instruction, and places the user query in the human
turn. -/
def qa_prompt_messages (context input : String) : List (String × String) :=
  [("system", system_instruction ++ context), ("human", input)]

-- ================================
-- Source and context entries (dictionaries produced by ask())
-- ================================

/-- Models the dictionaries that populate the sources and contexts lists of
the ask() result as consumed by src/app.py.  A missing dictionary key is
`none`.  The Python key "namespace" is a Lean keyword, so the field is named
`ns`; the key "source" is the field `source`, "page" is `page`, "chunk" is
`chunk` and "chunk_index" is `chunk_index`. -/
structure DocEntry where
  source : Option String
  page : Option Int
  ns : Option String
  chunk : Option String
  chunk_index : Option Int
deriving DecidableEq

-- ================================
-- Citation rendering (src/app.py, build_clickable_citations and helpers)
-- ================================

/-- Embeds icon_for_namespace (src/app.py lines 94-95). -/
def icon_for_namespace (ns : String) : String :=
  if ns = COURSE_NAMESPACE then "📖" else "🏥"

/-- Embeds os.path.basename: the part of the path after the last slash. -/
def basename (p : String) : String :=
  String.mk ((p.data.reverse.takeWhile (fun c => decide (c ≠ '/'))).reverse)

/-- Models str.lower() on the character data (the source only feeds ASCII
paths through it). -/
def lower_data (s : String) : List Char := s.data.map Char.toLower

/-- Helper for pretty_source_label.  The Python source applies re.sub with
the raw pattern "\\.pdf$" under IGNORECASE; that regex matches a literal
backslash, one non-newline character and the letters p, d, f in any case.
Given the reversed character list, this returns the remaining reversed
characters when the list starts with such a five-character tail. -/
def strip_tail_bspdf (rev : List Char) : Option (List Char) :=
  match rev with
  | f :: d :: p :: c :: b :: rest =>
    if (f = 'f' ∨ f = 'F') ∧ (d = 'd' ∨ d = 'D') ∧ (p = 'p' ∨ p = 'P')
        ∧ c ≠ '\n' ∧ b = '\\' then some rest else none
  | _ => none

/-- Embeds pretty_source_label (src/app.py lines 97-100): basename followed
by the re.sub described at strip_tail_bspdf.  The regex anchor also matches
immediately before a single trailing newline, which the first branch
reproduces. -/
def pretty_source_label (src_path : String) : String :=
  match (basename src_path).data.reverse with
  | '\n' :: rev =>
    match strip_tail_bspdf rev with
    | some rest => String.mk (('\n' :: rest).reverse)
    | none => basename src_path
  | _ =>
    match strip_tail_bspdf ((basename src_path).data.reverse) with
    | some rest => String.mk rest.reverse
    | none => basename src_path

/-- The anchor id "src-turn-i" used both for the inline citation link and
for the id attribute of the i-th rendered source line (src/app.py lines
119 and 129). -/
def anchor_name (turn_idx i : Nat) : String :=
  "src-" ++ toString turn_idx ++ "-" ++ toString i

/-- Embeds one inline citation link of build_clickable_citations
(src/app.py lines 128-131): an HTML a element whose href targets
anchor_name and whose text is the bracketed number. -/
def citation_link (turn_idx i : Nat) : String :=
  "<a href=\x27#" ++ anchor_name turn_idx i ++ "\x27 target=\x27_self\x27>[" ++ toString i ++ "]</a>"

/-- Embeds the part of a rendered source line after the anchor id and the
bracketed number (src/app.py lines 106-127): icon, namespace label, source
label, optional page suffix, closing div, and the optional context
expander.  Python truthiness of the namespace, source and chunk strings is
an emptiness test after the `or ""` / get("chunk", "") defaults. -/
def source_line_body (s : DocEntry) : String :=
  let ns := s.ns.getD ""
  let src := s.source.getD ""
  let chunk := s.chunk.getD ""
  let icon := icon_for_namespace (if ns ≠ "" then ns else COURSE_NAMESPACE)
  let ns_label := if ns ≠ "" then ns
    else if "medical_course".data <:+: lower_data src then COURSE_NAMESPACE else "Patient"
  let page_str := match s.page with
    | some n => " — page " ++ toString n
    | none => ""
  let src_label := if src ≠ "" then pretty_source_label src else ns_label
  let expander := if chunk ≠ "" then
      "<details><summary>Show context</summary>"
        ++ "<div style=\x27white-space:pre-wrap;font-size:smaller;background:#fafafa;"
        ++ "border:1px solid #ddd;padding:6px;border-radius:6px;margin-top:4px;\x27>"
        ++ chunk ++ "</div></details>"
    else ""
  icon ++ " **" ++ ns_label ++ "** — " ++ src_label ++ page_str ++ "</div>" ++ expander

/-- Embeds the full rendered line for the i-th source (src/app.py lines
120-127): the header div opens with the anchor id and the bracketed number,
then continues with source_line_body (which also appends the expander). -/
def source_line (turn_idx i : Nat) (s : DocEntry) : String :=
  "<div id=\x27" ++ anchor_name turn_idx i ++ "\x27>[" ++ toString i ++ "] " ++ source_line_body s

/-- Embeds the `for i, s in enumerate(sources, start=1)` loop of
build_clickable_citations: the k-th element of the list (0-based) is the
rendered line numbered i + k. -/
def number_lines (turn_idx : Nat) : Nat → List DocEntry → List String
  | _, [] => []
  | i, s :: rest => source_line turn_idx i s :: number_lines turn_idx (i + 1) rest

/-- Embeds build_clickable_citations (src/app.py lines 102-132): returns
the inline citation HTML (a space followed by the space-joined links for
numbers 1 through len(sources)) and the rendered source lines; on an empty
sources list it returns an empty string and no lines. -/
def build_clickable_citations (sources : List DocEntry) (turn_idx : Nat) :
    String × List String :=
  if sources = [] then ("", [])
  else
    (" " ++ String.intercalate " "
        ((List.range sources.length).map fun j => citation_link turn_idx (j + 1)),
      number_lines turn_idx 1 sources)

-- ================================
-- Source-context chunk matching and history append (src/app.py chat input)
-- ================================

/-- Embeds the three-way key comparison of the matching loop (src/app.py
lines 342-346): the source and a context match when they agree on the
"source", "page" and "namespace" keys (Python == on the dictionary values,
with two missing keys comparing equal).  The chunk_index key is not
consulted. -/
def same_provenance (src ctx : DocEntry) : Bool :=
  src.source == ctx.source && src.page == ctx.page && src.ns == ctx.ns

/-- Embeds the enrichment loop (src/app.py lines 340-348): for each source,
scan the contexts in order and, at the first context matching on
same_provenance, set the "chunk" key of the source to the chunk text of that context
(empty string when the context has no chunk) and stop; a source with no
matching context is left unchanged. -/
def match_source_chunks (sources contexts : List DocEntry) : List DocEntry :=
  sources.map fun src =>
    match contexts.find? (fun ctx => same_provenance src ctx) with
    | some ctx => { src with chunk := some (ctx.chunk.getD "") }
    | none => src

/-- Models the dictionary returned by ask(chain, question) as consumed by
src/app.py lines 335-338: result.get("answer", ""), result.get("sources",
[]) and result.get("contexts", []). -/
structure AskResult where
  answer : Option String
  sources : List DocEntry
  contexts : List DocEntry
deriving DecidableEq

/-- The conversation-turn dictionary appended to the chat history
(src/app.py lines 350-357). -/
structure ConversationTurn where
  question : String
  answer : String
  sources : List DocEntry
  timestamp : String
deriving DecidableEq

/-- Models Python str.strip(): drop leading and trailing whitespace (the
source only strips ASCII whitespace from chat input). -/
def py_strip (s : String) : String :=
  String.mk (((s.data.dropWhile Char.isWhitespace).reverse.dropWhile Char.isWhitespace).reverse)

/-- Embeds the chat input handler (src/app.py lines 306-358) at the
granularity of the chat history: a blank message (Python falsiness of
user_msg and user_msg.strip()) leaves the history unchanged; otherwise the
handler appends exactly one turn whose question is the stripped message,
whose answer is the answer of the ask() result with "" as the missing-key
default, whose sources are the sources of the result after the chunk-matching
loop, and whose timestamp is datetime.now().isoformat(), passed in here as
`timestamp`. -/
def chat_input_handler (chat_history : List ConversationTurn) (user_msg : String)
    (result : AskResult) (timestamp : String) : List ConversationTurn :=
  if py_strip user_msg = "" then chat_history
  else
    chat_history ++ [{ question := py_strip user_msg,
                       answer := result.answer.getD "",
                       sources := match_source_chunks result.sources result.contexts,
                       timestamp := timestamp }]

-- ================================
-- Patient id from uploaded filename (src/app.py sidebar upload handler)
-- ================================

/-- Python str.rfind for a single character on the character data: the
greatest index holding the character, or -1 when absent. -/
def rfind_char (c : Char) : List Char → Int
  | [] => -1
  | x :: xs =>
    if 0 ≤ rfind_char c xs then rfind_char c xs + 1
    else if x = c then (0 : Int) else -1

/-- Embeds os.path.splitext (posixpath) as called on the uploaded file name
(src/app.py line 236).  The extension starts at the last dot, provided that
dot lies after the last slash and that at least one character strictly
between the last slash and that dot is not itself a dot (CPython scans for
the first non-dot character in that range; the split happens exactly when
one exists). -/
def splitext (p : String) : String × String :=
  if rfind_char '/' p.data < rfind_char '.' p.data then
    if ((p.data.take (rfind_char '.' p.data).toNat).drop
          ((rfind_char '/' p.data) + 1).toNat).any (fun x => decide (x ≠ '.')) then
      (String.mk (p.data.take (rfind_char '.' p.data).toNat),
       String.mk (p.data.drop (rfind_char '.' p.data).toNat))
    else (p, "")
  else (p, "")

/-- Embeds patient_id = os.path.splitext(filename)[0] (src/app.py line
236); the patient namespace is keyed by this id. -/
def patient_id_of (filename : String) : String := (splitext filename).1

-- ================================
-- Retriever composer (src/rag.py, modelled from the spec)
-- ================================

/-- Modelled from the spec: the hit metadata an index-store similarity
query returns for one namespace (spec section 4.3 and 4.5); scores are kept
abstract as integers since only their ordering matters here. -/
structure StoreHit where
  text : String
  source_path : String
  page : Option Int
  chunk_index : Nat
  score : Int
deriving DecidableEq

/-- Modelled from the spec: a RetrievedContext (spec section 3), a query
hit tagged with its originating namespace. -/
structure RetrievedContext where
  text : String
  source_path : String
  page : Option Int
  chunk_index : Nat
  ns : String
  score : Int
deriving DecidableEq

/-- Tags a store hit with the namespace whose query produced it (spec
section 4.5: results are returned "each tagged with its originating
namespace"). -/
def tag_hit (ns : String) (h : StoreHit) : RetrievedContext :=
  { text := h.text, source_path := h.source_path, page := h.page,
    chunk_index := h.chunk_index, ns := ns, score := h.score }

/-- The deduplication key of spec section 4.5: (source_path, page,
chunk_index). -/
def dedup_key (r : RetrievedContext) : String × Option Int × Nat :=
  (r.source_path, r.page, r.chunk_index)

/-- Stable insertion into a descending-by-score list: the new element goes
after every element of strictly greater score and before the rest, so equal
scores keep their original relative order (spec section 4.5 tie-break). -/
def insert_by_score (r : RetrievedContext) : List RetrievedContext → List RetrievedContext
  | [] => [r]
  | x :: xs => if r.score < x.score then x :: insert_by_score r xs else r :: x :: xs

/-- Stable sort by descending score (spec section 4.5). -/
def sort_by_score_desc : List RetrievedContext → List RetrievedContext
  | [] => []
  | x :: xs => insert_by_score x (sort_by_score_desc xs)

/-- Keeps the first occurrence of each dedup_key; on a list sorted by
descending score this keeps the higher-scoring duplicate (spec section
4.5). -/
def dedupe_go (seen : List (String × Option Int × Nat)) :
    List RetrievedContext → List RetrievedContext
  | [] => []
  | r :: rest =>
    if dedup_key r ∈ seen then dedupe_go seen rest
    else r :: dedupe_go (dedup_key r :: seen) rest

/-- Deduplication entry point. -/
def dedupe_contexts (l : List RetrievedContext) : List RetrievedContext :=
  dedupe_go [] l

/-- Modelled from the spec: build_retrievers (src/rag.py, not in the
repository snapshot) receives patient_id and course_namespace from the
chat input handler (src/app.py lines 310-330) and selects the namespace
set to search, in configuration order patient first then coursebook (spec
section 4.5): patient-only, coursebook-only, both, or neither. -/
def build_retrievers (patient_id : Option String) (course_namespace : Option String) :
    List String :=
  patient_id.toList ++ course_namespace.toList

/-- Modelled from the spec: the per-query concatenation of the namespace
query results (spec section 4.5), each namespace queried with
k_per_namespace and each hit tagged with its originating namespace. -/
def merged_results (store : String → List StoreHit) (namespaces : List String)
    (k_per_namespace : Nat) : List RetrievedContext :=
  namespaces.flatMap fun ns => ((store ns).take k_per_namespace).map (tag_hit ns)

/-- Modelled from the spec: retrieve(question, k_per_namespace) of the
Retriever Composer (src/rag.py, not in the repository snapshot; spec
section 4.5): query each selected namespace, concatenate, sort the merged
sequence by descending score (stable), deduplicate identical (source_path,
page, chunk_index) keeping the higher score, and truncate to a global
top_n.  The question embedding is abstracted into `store`, the similarity
ranking the index store returns per namespace. -/
def retrieve (store : String → List StoreHit) (namespaces : List String)
    (k_per_namespace top_n : Nat) : List RetrievedContext :=
  (dedupe_contexts (sort_by_score_desc (merged_results store namespaces k_per_namespace))).take top_n

-- ================================
-- Concrete inputs used by the witness theorems
-- ================================

/-- A concrete store hit for the C4 witness. -/
def sample_hit : StoreHit :=
  { text := "allergy history", source_path := "data/patient_data/alice.pdf",
    page := some 1, chunk_index := 0, score := 5 }

/-- A concrete one-hit store for the C4 witness. -/
def sample_store : String → List StoreHit := fun _ => [sample_hit]

/-- A concrete source entry for the C7 witness. -/
def sample_source_entry : DocEntry :=
  { source := some "data/medical_course/guide.pdf", page := some 2,
    ns := some "Medical_Course", chunk := some "treat burns with cool water",
    chunk_index := some 4 }

/-- A concrete ask() result for the C8 witness. -/
def sample_ask_result : AskResult :=
  { answer := some "Cool the burn under running water.",
    sources := [{ source := some "data/medical_course/guide.pdf", page := some 2,
                  ns := some "Medical_Course", chunk := none, chunk_index := some 4 }],
    contexts := [{ source := some "data/medical_course/guide.pdf", page := some 2,
                   ns := some "Medical_Course", chunk := some "treat burns with cool water",
                   chunk_index := some 9 }] }

/-- The sources list of the C10 witness. -/
def c10_sources : List DocEntry :=
  [{ source := some "data/patient_data/alice.pdf", page := some 3,
     ns := some "alice", chunk := none, chunk_index := some 7 }]

/-- The contexts list of the C10 witness: a non-matching entry followed by
two matching ones, the first of which must win. -/
def c10_contexts : List DocEntry :=
  [{ source := some "data/patient_data/bob.pdf", page := some 3,
     ns := some "bob", chunk := some "wrong", chunk_index := some 7 },
   { source := some "data/patient_data/alice.pdf", page := some 3,
     ns := some "alice", chunk := some "first match", chunk_index := some 99 },
   { source := some "data/patient_data/alice.pdf", page := some 3,
     ns := some "alice", chunk := some "second match", chunk_index := some 7 }]

/-- The single source entry of the C10 witness. -/
def c10_src : DocEntry :=
  { source := some "data/patient_data/alice.pdf", page := some 3,
    ns := some "alice", chunk := none, chunk_index := some 7 }

/-- The first matching context of the C10 witness (its chunk_index differs
from that of the source). -/
def c10_first_match : DocEntry :=
  { source := some "data/patient_data/alice.pdf", page := some 3,
    ns := some "alice", chunk := some "first match", chunk_index := some 99 }

-- ================================
-- Helper lemmas
-- ================================

/-- The first element satisfying a predicate is the head of the filtered
list. -/
theorem find?_as_filter_head? {α : Type} (p : α → Bool) (l : List α) :
    l.find? p = (l.filter p).head? := by
  induction l with
  | nil => rfl
  | cons a l ih =>
    rw [List.find?_cons, List.filter_cons]
    cases h : p a
    · simpa using ih
    · rfl

-- ================================
-- C1, C2: coursebook ingestion ledger
-- ================================

/-- C1: coursebook ingestion is idempotent at document granularity — for a
filename already recorded in the uploaded_courses ledger, coursebook_dialog
is a no-op: it surfaces no error, invokes process_coursebook_pdf (and hence
chunking and embedding) zero times, and leaves the ledger unchanged,
whatever outcome a process call would have had. -/
theorem C1_coursebook_reingest_noop (process_result : Except String Unit)
    (uploaded_courses : List String) (filename : String)
    (h : filename ∈ uploaded_courses) :
    coursebook_dialog process_result uploaded_courses filename
      = (uploaded_courses, none, 0) := by
  unfold coursebook_dialog
  rw [if_pos h]

/-- Witness for C1 at a concrete ledger already holding the filename. -/
theorem C1_coursebook_reingest_noop_witness :
    ("intro.pdf" : String) ∈ ["intro.pdf", "other.pdf"]
    ∧ coursebook_dialog (Except.ok ()) ["intro.pdf", "other.pdf"] "intro.pdf"
        = (["intro.pdf", "other.pdf"], none, 0) :=
  ⟨by decide,
   C1_coursebook_reingest_noop (Except.ok ()) ["intro.pdf", "other.pdf"] "intro.pdf" (by decide)⟩

/-- C2: when process_coursebook_pdf raises on a filename not yet in the
ledger, the exception escapes coursebook_dialog after exactly one process
invocation and the uploaded_courses ledger is unchanged, so the filename is
still not recorded and a retry is not treated as already processed. -/
theorem C2_coursebook_error_ledger (e : String) (uploaded_courses : List String)
    (filename : String) (h : filename ∉ uploaded_courses) :
    coursebook_dialog (Except.error e) uploaded_courses filename
      = (uploaded_courses, some e, 1)
    ∧ filename ∉ (coursebook_dialog (Except.error e) uploaded_courses filename).1 := by
  constructor
  · unfold coursebook_dialog
    rw [if_neg h]
  · unfold coursebook_dialog
    rw [if_neg h]
    exact h

/-- Witness for C2 at a concrete ledger not holding the filename. -/
theorem C2_coursebook_error_ledger_witness :
    ("new.pdf" : String) ∉ ["old.pdf"]
    ∧ coursebook_dialog (Except.error "embedding provider error") ["old.pdf"] "new.pdf"
        = (["old.pdf"], some "embedding provider error", 1) :=
  ⟨by decide,
   (C2_coursebook_error_ledger "embedding provider error" ["old.pdf"] "new.pdf" (by decide)).1⟩

-- ================================
-- C3: namespace listing degrades to empty on store errors
-- ================================

/-- C3 counterexample: when the reachable store reports the coursebook
namespace among its namespaces, list_patient_namespaces does not return the
namespaces of the store — it drops COURSE_NAMESPACE. -/
theorem C3_store_namespaces_counterexample :
    list_patient_namespaces (Except.ok [COURSE_NAMESPACE, "alice"])
      ≠ [COURSE_NAMESPACE, "alice"] := by decide

/-- C3 (amended): if the underlying index-store call raises any exception,
list_patient_namespaces returns the empty collection rather than
propagating the error; when the store is reachable it returns exactly the
namespaces of the store other than the coursebook namespace. -/
theorem C3_list_namespaces_degrades :
    (∀ e : String, list_patient_namespaces (Except.error e) = [])
    ∧ ∀ stats : List String, ∀ ns : String,
        ns ∈ list_patient_namespaces (Except.ok stats)
          ↔ ns ∈ stats ∧ ns ≠ COURSE_NAMESPACE := by
  constructor
  · intro e
    rfl
  · intro stats ns
    simp [list_patient_namespaces, List.mem_filter]

-- ================================
-- C5: retrieval with no selected namespace is empty
-- ================================

/-- C5: when the retrieval configuration selects no namespace at all — as
build_retrievers receives patient_id = none and course_namespace = none in
Client Only mode with no patient selected — retrieval returns the empty
result set. -/
theorem C5_empty_namespace_config (store : String → List StoreHit)
    (k_per_namespace top_n : Nat) :
    retrieve store (build_retrievers none none) k_per_namespace top_n = [] := by
  show (dedupe_contexts (sort_by_score_desc
      (merged_results store ([] : List String) k_per_namespace))).take top_n = []
  simp [merged_results, sort_by_score_desc, dedupe_contexts, dedupe_go]

-- ================================
-- C6: fixed grounding instruction and exact insufficient-context sentence
-- ================================

set_option maxRecDepth 100000 in
/-- C6: the system turn of the answer chain is built from the fixed constant
system_prompt, whose instruction part precedes the context placeholder;
that instruction contains the grounding clause restricting the model to the
supplied context, contains the insufficient-context sentence verbatim as
the standalone constant insufficient_context_sentence (suitable for exact
string matching), and the sentence stays verbatim in the system message for
every interpolated context. -/
theorem C6_grounding_instruction_constant :
    system_prompt = system_instruction ++ "{context}"
    ∧ (∀ context input, qa_prompt_messages context input
        = [("system", system_instruction ++ context), ("human", input)])
    ∧ (∃ pre post, system_instruction = pre ++ grounding_clause ++ post)
    ∧ (∃ pre post, system_instruction = pre ++ insufficient_context_sentence ++ post)
    ∧ (∀ context, ∃ pre post,
        system_instruction ++ context = pre ++ insufficient_context_sentence ++ post) := by
  have hg : system_instruction
      = ("You are a Data Architect Assistant helping data architects understand client problems and design the right solutions. "
          ++ "Answer clearly, accurately, and concisely. Focus only on providing architectural advice, suggestions, recommendations, cautions, and checklists "
          ++ "that a data architect can use to make decisions. "
          ++ "Prioritize clarity of client needs, alignment with best practices, and potential risks/trade-offs in design choices. ")
        ++ grounding_clause
        ++ ("If the provided context does not contain enough information to answer the question, explicitly state: "
          ++ "\x27The provided context does not contain sufficient information to give recommendations on this topic. Please request more details from the client.\x27 "
          ++ "Provide structured, actionable insights that are step-by-step and directly based on the context. "
          ++ "Do not speculate, assume requirements, or provide information not found in the context.\n\n") := by
    decide
  have hic : system_instruction
      = ("You are a Data Architect Assistant helping data architects understand client problems and design the right solutions. "
          ++ "Answer clearly, accurately, and concisely. Focus only on providing architectural advice, suggestions, recommendations, cautions, and checklists "
          ++ "that a data architect can use to make decisions. "
          ++ "Prioritize clarity of client needs, alignment with best practices, and potential risks/trade-offs in design choices. "
          ++ "ONLY use the information provided in the context below. Do NOT add any information from your general knowledge. "
          ++ "If the provided context does not contain enough information to answer the question, explicitly state: \x27")
        ++ insufficient_context_sentence
        ++ ("\x27 Provide structured, actionable insights that are step-by-step and directly based on the context. "
          ++ "Do not speculate, assume requirements, or provide information not found in the context.\n\n") := by
    decide
  have step : ∀ X A B C ctx : String, X = A ++ B ++ C → X ++ ctx = A ++ B ++ (C ++ ctx) := by
    intro X A B C ctx h
    rw [h, String.append_assoc]
  exact ⟨rfl, fun context input => rfl, ⟨_, _, hg⟩, ⟨_, _, hic⟩,
    fun context => ⟨_, _, step system_instruction _ insufficient_context_sentence _ context hic⟩⟩

-- ================================
-- C4: namespace isolation of Client Only retrieval
-- ================================

/-- Membership after stable insertion comes from the inserted element or
the original list. -/
theorem mem_insert_by_score {x r : RetrievedContext} {l : List RetrievedContext}
    (h : x ∈ insert_by_score r l) : x = r ∨ x ∈ l := by
  induction l with
  | nil => simpa [insert_by_score] using h
  | cons a l ih =>
    by_cases hlt : r.score < a.score
    · simp only [insert_by_score, if_pos hlt] at h
      rcases List.mem_cons.mp h with h1 | h2
      · exact Or.inr (h1 ▸ List.mem_cons_self a l)
      · rcases ih h2 with h3 | h4
        · exact Or.inl h3
        · exact Or.inr (List.mem_cons_of_mem a h4)
    · simp only [insert_by_score, if_neg hlt] at h
      simpa using h

/-- Sorting by descending score preserves membership downwards. -/
theorem mem_sort_by_score_desc {x : RetrievedContext} {l : List RetrievedContext}
    (h : x ∈ sort_by_score_desc l) : x ∈ l := by
  induction l with
  | nil => simpa [sort_by_score_desc] using h
  | cons a l ih =>
    rcases mem_insert_by_score (show x ∈ insert_by_score a (sort_by_score_desc l) from h)
        with h1 | h2
    · simp [h1]
    · exact List.mem_cons_of_mem a (ih h2)

/-- Deduplication preserves membership downwards. -/
theorem mem_dedupe_go {x : RetrievedContext} :
    ∀ (seen : List (String × Option Int × Nat)) (l : List RetrievedContext),
      x ∈ dedupe_go seen l → x ∈ l := by
  intro seen l
  induction l generalizing seen with
  | nil => intro h; simpa [dedupe_go] using h
  | cons r rest ih =>
    intro h
    by_cases hk : dedup_key r ∈ seen
    · simp only [dedupe_go, if_pos hk] at h
      exact List.mem_cons_of_mem r (ih seen h)
    · simp only [dedupe_go, if_neg hk] at h
      rcases List.mem_cons.mp h with h1 | h2
      · exact h1 ▸ List.mem_cons_self r rest
      · exact List.mem_cons_of_mem r (ih _ h2)

/-- C4: in Client Only mode with patient a selected, the retriever is built
with patient_id = a and course_namespace = none, so every RetrievedContext
the retrieval yields carries namespace a — never the namespace b of another
patient. -/
theorem C4_client_only_isolation (store : String → List StoreHit) (a b : String)
    (k_per_namespace top_n : Nat) (hab : a ≠ b) (r : RetrievedContext)
    (hr : r ∈ retrieve store (build_retrievers (some a) none) k_per_namespace top_n) :
    r.ns = a ∧ r.ns ≠ b := by
  have h1 : r ∈ dedupe_contexts (sort_by_score_desc
      (merged_results store (build_retrievers (some a) none) k_per_namespace)) :=
    List.take_subset _ _ hr
  have h2 := mem_dedupe_go [] _ h1
  have h3 := mem_sort_by_score_desc h2
  have h4 : r ∈ ((store a).take k_per_namespace).map (tag_hit a) := by
    have h5 : r ∈ merged_results store [a] k_per_namespace := h3
    simpa [merged_results] using h5
  rcases List.mem_map.mp h4 with ⟨hit, _, rfl⟩
  exact ⟨rfl, hab⟩

/-- Witness for C4 at a concrete one-hit store and patients alice, bob. -/
theorem C4_client_only_isolation_witness :
    ("alice" : String) ≠ "bob"
    ∧ tag_hit "alice" sample_hit
        ∈ retrieve sample_store (build_retrievers (some "alice") none) 1 1
    ∧ (tag_hit "alice" sample_hit).ns = "alice"
    ∧ (tag_hit "alice" sample_hit).ns ≠ "bob" := by
  refine ⟨by decide, by decide, ?_, ?_⟩
  · exact (C4_client_only_isolation sample_store "alice" "bob" 1 1 (by decide) _ (by decide)).1
  · exact (C4_client_only_isolation sample_store "alice" "bob" 1 1 (by decide) _ (by decide)).2

-- ================================
-- C7: inline citation numbering matches source order
-- ================================

/-- One rendered line per source. -/
theorem number_lines_length (turn_idx : Nat) :
    ∀ (i : Nat) (l : List DocEntry), (number_lines turn_idx i l).length = l.length := by
  intro i l
  induction l generalizing i with
  | nil => rfl
  | cons s rest ih => simp [number_lines, ih]

/-- The j-th rendered line is the j-th source rendered with number i + j. -/
theorem number_lines_getElem? (turn_idx : Nat) :
    ∀ (i j : Nat) (l : List DocEntry),
      (number_lines turn_idx i l)[j]? = l[j]?.map (fun s => source_line turn_idx (i + j) s) := by
  intro i j l
  induction l generalizing i j with
  | nil => simp [number_lines]
  | cons s rest ih =>
    cases j with
    | zero => simp [number_lines]
    | succ j =>
      have harith : i + 1 + j = i + (j + 1) := by omega
      simp only [number_lines, List.getElem?_cons_succ, ih, harith]

/-- C7: for a non-empty sources list of length n, the inline citation HTML
is a space followed by the space-joined links for numbers 1 through n in
that order; there is one rendered line per source; and for every j the
(j+1)-numbered link targets anchor_name turn_idx (j+1) while the j-th
rendered line opens a div carrying exactly that anchor id and that
bracketed number — so the i-th inline reference links to the entry
rendered for the i-th source. -/
theorem C7_citation_numbering (sources : List DocEntry) (turn_idx : Nat)
    (h : sources ≠ []) :
    (build_clickable_citations sources turn_idx).1
      = " " ++ String.intercalate " "
          ((List.range sources.length).map fun j => citation_link turn_idx (j + 1))
    ∧ (build_clickable_citations sources turn_idx).2.length = sources.length
    ∧ ∀ j, j < sources.length →
        citation_link turn_idx (j + 1)
            = "<a href=\x27#" ++ anchor_name turn_idx (j + 1)
              ++ "\x27 target=\x27_self\x27>[" ++ toString (j + 1) ++ "]</a>"
        ∧ ∃ rest, (build_clickable_citations sources turn_idx).2[j]?
            = some ("<div id=\x27" ++ anchor_name turn_idx (j + 1) ++ "\x27>["
                ++ toString (j + 1) ++ "] " ++ rest) := by
  have hb : build_clickable_citations sources turn_idx
      = (" " ++ String.intercalate " "
          ((List.range sources.length).map fun j => citation_link turn_idx (j + 1)),
         number_lines turn_idx 1 sources) := by
    unfold build_clickable_citations
    rw [if_neg h]
  refine ⟨by rw [hb], by rw [hb]; exact number_lines_length turn_idx 1 sources, ?_⟩
  intro j hj
  refine ⟨rfl, source_line_body (sources.get ⟨j, hj⟩), ?_⟩
  rw [hb]
  show (number_lines turn_idx 1 sources)[j]? = _
  rw [number_lines_getElem? turn_idx 1 j sources, List.getElem?_eq_getElem hj]
  have harith : 1 + j = j + 1 := by omega
  rw [Option.map_some', harith]
  rfl

/-- Witness for C7 at a concrete one-element sources list. -/
theorem C7_citation_numbering_witness :
    ([sample_source_entry] : List DocEntry) ≠ []
    ∧ (build_clickable_citations [sample_source_entry] 0).1
        = " " ++ String.intercalate " " [citation_link 0 1]
    ∧ (build_clickable_citations [sample_source_entry] 0).2.length = 1 := by
  have h := C7_citation_numbering [sample_source_entry] 0 (by decide)
  refine ⟨by decide, ?_, h.2.1⟩
  rw [h.1]
  decide

-- ================================
-- C8: shape of the appended conversation turn
-- ================================

/-- C8: a non-blank chat message appends exactly one ConversationTurn of
shape (question, answer, sources, timestamp) to the history: the question
is the stripped user message, the answer is the answer of the ask() result with
"" as the missing-key default, and the sources are the sources of the result
sequence as enriched in place by the chunk-matching loop — which preserves
the length, the order, and the source, page and namespace of every
entry. -/
theorem C8_conversation_turn_shape (chat_history : List ConversationTurn)
    (user_msg timestamp : String) (result : AskResult)
    (h : py_strip user_msg ≠ "") :
    chat_input_handler chat_history user_msg result timestamp
      = chat_history ++ [{ question := py_strip user_msg,
                           answer := result.answer.getD "",
                           sources := match_source_chunks result.sources result.contexts,
                           timestamp := timestamp }]
    ∧ (match_source_chunks result.sources result.contexts).length = result.sources.length
    ∧ ∀ i : Nat, ((match_source_chunks result.sources result.contexts)[i]?).map DocEntry.source
          = (result.sources[i]?).map DocEntry.source
        ∧ ((match_source_chunks result.sources result.contexts)[i]?).map DocEntry.page
          = (result.sources[i]?).map DocEntry.page
        ∧ ((match_source_chunks result.sources result.contexts)[i]?).map DocEntry.ns
          = (result.sources[i]?).map DocEntry.ns := by
  refine ⟨?_, ?_, ?_⟩
  · unfold chat_input_handler
    rw [if_neg h]
  · unfold match_source_chunks
    exact List.length_map _ _
  · intro i
    have key : (match_source_chunks result.sources result.contexts)[i]?
        = (result.sources[i]?).map (fun src =>
            match result.contexts.find? (fun ctx => same_provenance src ctx) with
            | some ctx => { src with chunk := some (ctx.chunk.getD "") }
            | none => src) := by
      unfold match_source_chunks
      exact List.getElem?_map _ _ _
    rw [key]
    cases result.sources[i]? with
    | none => exact ⟨rfl, rfl, rfl⟩
    | some src =>
      simp only [Option.map_some']
      cases hf : result.contexts.find? (fun ctx => same_provenance src ctx) <;>
        exact ⟨rfl, rfl, rfl⟩

/-- Witness for C8 at a concrete blank-padded question and one-source ask()
result. -/
theorem C8_conversation_turn_shape_witness :
    py_strip "  How do I treat a burn?  " ≠ ""
    ∧ chat_input_handler [] "  How do I treat a burn?  " sample_ask_result "2026-10-12T00:00:00"
        = [{ question := py_strip "  How do I treat a burn?  ",
             answer := sample_ask_result.answer.getD "",
             sources := match_source_chunks sample_ask_result.sources sample_ask_result.contexts,
             timestamp := "2026-10-12T00:00:00" }] := by
  refine ⟨by decide, ?_⟩
  have h := (C8_conversation_turn_shape [] "  How do I treat a burn?  "
      "2026-10-12T00:00:00" sample_ask_result (by decide)).1
  simpa using h

-- ================================
-- C9: patient id drops the final extension
-- ================================

/-- A character absent from a list has rfind index -1. -/
theorem rfind_char_of_not_mem {c : Char} {l : List Char} (h : c ∉ l) :
    rfind_char c l = -1 := by
  induction l with
  | nil => rfl
  | cons x xs ih =>
    simp only [List.mem_cons, not_or] at h
    simp only [rfind_char, ih h.2]
    rw [if_neg (Ne.symm h.1)]
    norm_num

/-- rfind over xs ++ c :: ys finds the separating occurrence when c is
absent from ys. -/
theorem rfind_char_append (c : Char) (xs ys : List Char) (h : c ∉ ys) :
    rfind_char c (xs ++ c :: ys) = (xs.length : Int) := by
  induction xs with
  | nil =>
    simp only [List.nil_append, rfind_char, rfind_char_of_not_mem h]
    simp
  | cons x xs ih =>
    simp only [List.cons_append, rfind_char]
    rw [show rfind_char c (xs.append (c :: ys)) = (xs.length : Int) from ih]
    rw [if_pos (Int.natCast_nonneg xs.length)]
    simp only [List.length_cons]
    push_cast
    ring

/-- splitext on stem ++ "." ++ ext recovers the stem whenever the stem has
some non-dot character, the extension part has no dot, and neither part
has a slash. -/
theorem splitext_stem (s r : String) (hs1 : '/' ∉ s.data)
    (hs2 : s.data.any (fun c => decide (c ≠ '.')) = true)
    (hr1 : '/' ∉ r.data) (hr2 : '.' ∉ r.data) :
    (splitext (s ++ "." ++ r)).1 = s := by
  have hdata : (s ++ "." ++ r).data = s.data ++ '.' :: r.data := by
    show (s.data ++ ['.']) ++ r.data = s.data ++ '.' :: r.data
    rw [List.append_assoc]
    rfl
  have hslash : '/' ∉ s.data ++ '.' :: r.data := by
    simp only [List.mem_append, List.mem_cons]
    push_neg
    exact ⟨hs1, by decide, hr1⟩
  unfold splitext
  rw [hdata, rfind_char_of_not_mem hslash, rfind_char_append '.' s.data r.data hr2]
  rw [if_pos (lt_of_lt_of_le (by norm_num) (Int.natCast_nonneg s.data.length))]
  rw [show ((-1 : Int) + 1).toNat = 0 by decide, Int.toNat_natCast, List.drop_zero,
    List.take_left]
  rw [if_pos hs2]

/-- C9: the patient id derived by the upload handler is the uploaded file
name with its final extension removed, so two uploads whose filenames share
a stem and differ only in their final extension target the same patient id
(and hence the same patient namespace), as does re-uploading the same
filename. -/
theorem C9_patient_id_drops_extension (s r1 r2 : String) (hs1 : '/' ∉ s.data)
    (hs2 : s.data.any (fun c => decide (c ≠ '.')) = true)
    (h1s : '/' ∉ r1.data) (h1d : '.' ∉ r1.data)
    (h2s : '/' ∉ r2.data) (h2d : '.' ∉ r2.data) :
    patient_id_of (s ++ "." ++ r1) = s
    ∧ patient_id_of (s ++ "." ++ r2) = s
    ∧ patient_id_of (s ++ "." ++ r1) = patient_id_of (s ++ "." ++ r2) := by
  have h1 := splitext_stem s r1 hs1 hs2 h1s h1d
  have h2 := splitext_stem s r2 hs1 hs2 h2s h2d
  exact ⟨h1, h2, h1.trans h2.symm⟩

/-- Witness for C9 at the concrete filenames alice.pdf and alice.txt. -/
theorem C9_patient_id_drops_extension_witness :
    ('/' ∉ "alice".data)
    ∧ ("alice".data.any (fun c => decide (c ≠ '.')) = true)
    ∧ ('/' ∉ "pdf".data) ∧ ('.' ∉ "pdf".data)
    ∧ ('/' ∉ "txt".data) ∧ ('.' ∉ "txt".data)
    ∧ patient_id_of "alice.pdf" = "alice"
    ∧ patient_id_of "alice.txt" = "alice" := by
  have h := C9_patient_id_drops_extension "alice" "pdf" "txt" (by decide) (by decide)
      (by decide) (by decide) (by decide) (by decide)
  exact ⟨by decide, by decide, by decide, by decide, by decide, by decide, h.1, h.2.1⟩

-- ================================
-- C10: chunk enrichment matches on (source, page, namespace) only
-- ================================

/-- C10: the i-th enriched source is the i-th ask() result source with its
"chunk" key set to the chunk text (default "") of the first context — in
contexts order — agreeing with it on source, page and namespace; when no
context agrees the source is returned exactly unchanged (so it gains no
chunk key); and the chunk_index values of the contexts play no role in the
outcome. -/
theorem C10_source_chunk_enrichment (sources contexts : List DocEntry) (i : Nat)
    (src : DocEntry) (hsrc : sources[i]? = some src) :
    ((contexts.filter fun ctx => same_provenance src ctx).head? = none →
        (match_source_chunks sources contexts)[i]? = some src)
    ∧ (∀ c, (contexts.filter fun ctx => same_provenance src ctx).head? = some c →
        (match_source_chunks sources contexts)[i]?
          = some { src with chunk := some (c.chunk.getD "") })
    ∧ ∀ f : Option Int → Option Int,
        match_source_chunks sources
            (contexts.map fun c => { c with chunk_index := f c.chunk_index })
          = match_source_chunks sources contexts := by
  have hget : (match_source_chunks sources contexts)[i]?
      = some (match contexts.find? (fun ctx => same_provenance src ctx) with
              | some ctx => { src with chunk := some (ctx.chunk.getD "") }
              | none => src) := by
    unfold match_source_chunks
    rw [List.getElem?_map _ _ i, hsrc, Option.map_some']
  have hfind : contexts.find? (fun ctx => same_provenance src ctx)
      = (contexts.filter fun ctx => same_provenance src ctx).head? :=
    find?_as_filter_head? _ _
  refine ⟨?_, ?_, ?_⟩
  · intro hnone
    rw [hget, hfind, hnone]
  · intro c hc
    rw [hget, hfind, hc]
  · intro f
    unfold match_source_chunks
    have hFG : (fun src2 : DocEntry =>
        match (contexts.map fun c => { c with chunk_index := f c.chunk_index }).find?
            (fun ctx => same_provenance src2 ctx) with
        | some ctx => ({ src2 with chunk := some (ctx.chunk.getD "") } : DocEntry)
        | none => src2)
        = (fun src2 : DocEntry =>
        match contexts.find? (fun ctx => same_provenance src2 ctx) with
        | some ctx => { src2 with chunk := some (ctx.chunk.getD "") }
        | none => src2) := by
      funext src2
      rw [List.find?_map]
      have hcomp : ((fun ctx => same_provenance src2 ctx) ∘
            fun c => ({ c with chunk_index := f c.chunk_index } : DocEntry))
          = fun ctx => same_provenance src2 ctx := rfl
      rw [hcomp]
      cases hf : contexts.find? (fun ctx => same_provenance src2 ctx) <;> rfl
    rw [hFG]

/-- Witness for C10: the first matching context (differing chunk_index
included) supplies the chunk. -/
theorem C10_source_chunk_enrichment_witness :
    c10_sources[0]? = some c10_src
    ∧ (match_source_chunks c10_sources c10_contexts)[0]?
        = some { c10_src with chunk := some (c10_first_match.chunk.getD "") } := by
  refine ⟨rfl, ?_⟩
  have h := (C10_source_chunk_enrichment c10_sources c10_contexts 0 c10_src rfl).2.1
  exact h c10_first_match (by decide)
